import Mathlib

/-!
Verification of the gRPC dynamic-invocation core of the panggil TUI client
(src/main.go) against its natural-language specification.

The shallow embedding below translates, function by function, the template
synthesizer (buildTemplateMap, getZeroValue, generateGrpcBodyTemplate), the
request sender (sendGrpcRequest), the connect routine and catalog builder
(grpcConnect) and the method-list filter (updateGrpcMethodList).
-/

namespace Panggil

/-- JSON values as Go's encoding/json unmarshals them into an interface value.
Objects are ordered association lists: Go builds the template in a
map keyed by JSON field name, one insert per declared field, and protobuf
guarantees distinct JSON names within one message, so the association list
built below represents the Go map faithfully. Numbers are modelled as
integers; no verified property depends on the numeric representation. -/
inductive Json where
  | str : String → Json
  | num : Int → Json
  | bool : Bool → Json
  | null : Json
  | arr : List Json → Json
  | obj : List (String × Json) → Json

/-- Protobuf field kinds as dispatched by buildTemplateMap and getZeroValue in
src/main.go: string and bool have dedicated zero values; a message kind
carries the full name of the nested message descriptor, to be resolved the
way field.Message() is; every other kind (int32, int64, float, double, enum,
bytes, ...) falls into the default branch of getZeroValue. -/
inductive ProtoKind where
  | stringKind
  | boolKind
  | messageKind : String → ProtoKind
  | otherKind
  deriving DecidableEq

/-- One protobuf field descriptor with the four pieces buildTemplateMap reads:
JSONName(), Kind(), IsList(), IsMap(). -/
structure FieldDescriptor where
  jsonName : String
  kind : ProtoKind
  isList : Bool
  isMap : Bool
  deriving DecidableEq

/-- The message descriptors reachable from a method input type, by full name.
field.Message() is resolved against this environment, which makes
self-referential schemas expressible as finite data. -/
abbrev MessageEnv := List (String × List FieldDescriptor)

/-- Lookup in a JSON object: the comma-ok map access existingData[fieldName]
of src/main.go:488. -/
def lookupObj : List (String × Json) → String → Option Json
  | [], _ => none
  | (k, v) :: rest, n => if k = n then some v else lookupObj rest n

/-- Resolve a nested message type name to its declared fields, the way
field.Message().Fields() yields them. An unbound name resolves to no
fields; the Go descriptors always have every referenced message present. -/
def lookupMsg : MessageEnv → String → List FieldDescriptor
  | [], _ => []
  | (k, fs) :: rest, n => if k = n then fs else lookupMsg rest n

def isMessageKind : ProtoKind → Bool
  | ProtoKind.messageKind _ => true
  | _ => false

def messageTypeName : ProtoKind → String
  | ProtoKind.messageKind n => n
  | _ => ""

/-- The test field.Kind() == protoreflect.MessageKind && !field.IsList() &&
!field.IsMap() of src/main.go:489. -/
def isSingularMessage (f : FieldDescriptor) : Bool :=
  isMessageKind f.kind && !f.isList && !f.isMap

/-- The Go type assertion existingValue.(map[string]interface...) succeeding
(src/main.go:490). -/
def Json.isObject : Json → Bool
  | Json.obj _ => true
  | _ => false

/-- getZeroValue (src/main.go:515-524): empty string for StringKind, false for
BoolKind, and 0 for every other kind (the default branch of the Go switch:
int32, int64, float, double, enum, ...). -/
def getZeroValue (f : FieldDescriptor) : Json :=
  match f.kind with
  | ProtoKind.stringKind => Json.str ""
  | ProtoKind.boolKind => Json.bool false
  | _ => Json.num 0

/-- The per-field step of buildTemplateMap (src/main.go:488-508),
parameterised by the recursive call so that recursion depth can be accounted
explicitly in buildTemplateMap below. The branch structure mirrors the Go
source: existing value present and field a singular message and value an
object means recurse; existing value present otherwise is kept verbatim; with
no existing value, lists get an empty sequence, maps an empty mapping,
singular messages a recursive call on an empty object, and scalars their
getZeroValue. -/
def buildFieldValue (env : MessageEnv)
    (recur : List FieldDescriptor → List (String × Json) → Option (List (String × Json)))
    (f : FieldDescriptor) (existing : List (String × Json)) : Option Json :=
  match lookupObj existing f.jsonName with
  | some existingValue =>
    if isSingularMessage f then
      match existingValue with
      | Json.obj subMap => Option.map Json.obj (recur (lookupMsg env (messageTypeName f.kind)) subMap)
      | _ => some existingValue
    else some existingValue
  | none =>
    if f.isList then some (Json.arr [])
    else if f.isMap then some (Json.obj [])
    else
      match f.kind with
      | ProtoKind.messageKind m => Option.map Json.obj (recur (lookupMsg env m) [])
      | _ => some (getZeroValue f)

/-- The field loop of buildTemplateMap (src/main.go:484-509): one entry
inserted per declared field, in declaration order. -/
def buildTemplateFields (env : MessageEnv)
    (recur : List FieldDescriptor → List (String × Json) → Option (List (String × Json))) :
    List FieldDescriptor → List (String × Json) → Option (List (String × Json))
  | [], _ => some []
  | f :: rest, existing =>
    match buildFieldValue env recur f existing, buildTemplateFields env recur rest existing with
    | some v, some t => some ((f.jsonName, v) :: t)
    | _, _ => none

/-- buildTemplateMap (src/main.go:481-511). The Go function recurses into
nested message descriptors with no termination guard of any kind; the
embedding makes the recursion depth explicit as fuel. A result of none means
the evaluation did not complete within the given depth, so a schema on which
every fuel yields none is exactly one on which the Go recursion never
terminates. -/
def buildTemplateMap (env : MessageEnv) (fuel : Nat) (fields : List FieldDescriptor)
    (existing : List (String × Json)) : Option (List (String × Json)) :=
  match fuel with
  | 0 => none
  | Nat.succ n => buildTemplateFields env (fun fs ex => buildTemplateMap env n fs ex) fields existing

/-- Scenario A schema of the spec: fields name:string and repeat:int32. -/
def nameField : FieldDescriptor := ⟨"name", ProtoKind.stringKind, false, false⟩

def repeatField : FieldDescriptor := ⟨"repeat", ProtoKind.otherKind, false, false⟩

def scenarioFields : List FieldDescriptor := [nameField, repeatField]

def scenarioExisting : List (String × Json) := [("name", Json.str "Bob")]

/-- Scenario E schema of the spec: an outer message with the singular message
field inner whose type Inner declares x:int32 and y:int32. -/
def innerField : FieldDescriptor := ⟨"inner", ProtoKind.messageKind "Inner", false, false⟩

def innerEnv : MessageEnv :=
  [("Inner", [⟨"x", ProtoKind.otherKind, false, false⟩, ⟨"y", ProtoKind.otherKind, false, false⟩])]

/-- A self-referential schema: message T declares the singular message field
self of its own type T, the shape of a generic or any-payload wrapper type. -/
def selfRecEnv : MessageEnv := [("T", [⟨"self", ProtoKind.messageKind "T", false, false⟩])]

/-- strings.SplitN(s, sep, 2) on a character list: the text before the first
slash together with the remainder, or no remainder when no slash occurs. -/
def splitCharsOnSlash : List Char → List Char × Option (List Char)
  | [] => ([], none)
  | c :: cs =>
    if c == '/' then ([], some cs)
    else
      let r := splitCharsOnSlash cs
      (c :: r.fst, r.snd)

/-- strings.SplitN(fullMethodName, sep, 2) of src/main.go:622 with sep the
slash: a one-element list when the string holds no slash, otherwise the part
before the first slash and the remainder. -/
def splitN2 (s : String) : List String :=
  match splitCharsOnSlash s.data with
  | (_, none) => [s]
  | (hd, some rest) => [String.mk hd, String.mk rest]

/-- The network-facing operations sendGrpcRequest can perform, in program
order: the reflection resolution grpcReflectClient.ResolveService and the
call grpcStub.InvokeRpc. -/
inductive NetOp where
  | resolveService : String → NetOp
  | invokeRpc : NetOp
  deriving DecidableEq

/-- The distinct exits of sendGrpcRequest (src/main.go:608-709), in the order
the code can take them. -/
inductive GrpcSendResult where
  | notConnected
  | noMethodSelected
  | invalidFormat
  | resolveError
  | methodNotFound
  | bodyParseError
  | metaParseError
  | rpcError
  | success
  deriving DecidableEq

/-- sendGrpcRequest (src/main.go:608-709) as a function from the relevant
state (is grpcConn non-nil, the selected service/method string, the body and
metadata text) and environment oracles (does ResolveService succeed, is the
method found on the service, does the body text unmarshal into the dynamic
message, does the metadata text unmarshal, does the RPC return an error) to
the outcome paired with the ordered list of network operations performed.
The branch order mirrors the source exactly: connection guard, selection
guard, SplitN format check, ResolveService, FindMethodByName, body JSON
unmarshal (skipped when the body text is empty), metadata JSON unmarshal
(skipped when the metadata text is empty), InvokeRpc. -/
def sendGrpcRequest (conn : Bool) (currentService : String)
    (resolveOk : String → Bool) (findMethod : String → String → Bool)
    (bodyParses : String → Bool) (metaParses : String → Bool)
    (rpcOk : Bool) (bodyText metaText : String) : GrpcSendResult × List NetOp :=
  if conn = false then (GrpcSendResult.notConnected, [])
  else if currentService = "" then (GrpcSendResult.noMethodSelected, [])
  else if (splitN2 currentService).length ≠ 2 then (GrpcSendResult.invalidFormat, [])
  else if resolveOk ((splitN2 currentService).headD "") = false then
    (GrpcSendResult.resolveError, [NetOp.resolveService ((splitN2 currentService).headD "")])
  else if findMethod ((splitN2 currentService).headD "") ((splitN2 currentService).getD 1 "") = false then
    (GrpcSendResult.methodNotFound, [NetOp.resolveService ((splitN2 currentService).headD "")])
  else if bodyText ≠ "" ∧ bodyParses bodyText = false then
    (GrpcSendResult.bodyParseError, [NetOp.resolveService ((splitN2 currentService).headD "")])
  else if metaText ≠ "" ∧ metaParses metaText = false then
    (GrpcSendResult.metaParseError, [NetOp.resolveService ((splitN2 currentService).headD "")])
  else if rpcOk then
    (GrpcSendResult.success,
      [NetOp.resolveService ((splitN2 currentService).headD ""), NetOp.invokeRpc])
  else
    (GrpcSendResult.rpcError,
      [NetOp.resolveService ((splitN2 currentService).headD ""), NetOp.invokeRpc])

/-- The four ways the InvokeRpc completion handler of src/main.go:683-708 can
classify what came back: the RPC returned an error, the response had an
unexpected dynamic type, the response failed to marshal to JSON, or success
with the marshalled response text. -/
inductive RpcOutcome where
  | rpcFailure : String → RpcOutcome
  | badRespType : String → RpcOutcome
  | marshalFailure : String → RpcOutcome
  | ok : String → RpcOutcome

/-- What the completion handler writes to the status line and response view. -/
structure InvokeDisplay where
  statusText : String
  responseText : String

/-- The textual rendering of the measured time.Duration, as interpolated by
the fmt verbs in src/main.go. -/
def formatDuration (ms : Nat) : String := toString ms ++ "ms"

/-- The QueueUpdateDraw body of src/main.go:683-708: each outcome's status and
response text, with exactly the format strings of the source. The measured
duration is interpolated into the success status only; no error branch
mentions it. -/
def renderGrpcResult (durationStr : String) (outcome : RpcOutcome) : InvokeDisplay :=
  match outcome with
  | RpcOutcome.rpcFailure err =>
    { statusText := "[red]RPC Error: " ++ err, responseText := "[red]" ++ err }
  | RpcOutcome.badRespType tname =>
    { statusText := "[red]Internal Error: Unexpected response type " ++ tname,
      responseText := "Could not format response: " ++ tname }
  | RpcOutcome.marshalFailure err =>
    { statusText := "[red]Error formatting response JSON: " ++ err,
      responseText := "Could not format response JSON: " ++ err }
  | RpcOutcome.ok respJson =>
    { statusText := "[green]Success![-] | Duration: [cyan]" ++ durationStr ++ "[-]",
      responseText := respJson }

/-- The invocation tail of sendGrpcRequest (src/main.go:679-708): start is
taken before InvokeRpc and duration := time.Since(start) right after it, on
every path, so the measured duration (first component) is always populated;
the display (second component) is rendered from the outcome. -/
def invokeGrpc (elapsedMs : Nat) (outcome : RpcOutcome) : Nat × InvokeDisplay :=
  (elapsedMs, renderGrpcResult (formatDuration elapsedMs) outcome)

/-- Whether pat occurs at the head of the text. -/
def charsLead : List Char → List Char → Bool
  | [], _ => true
  | _ :: _, [] => false
  | p :: ps, c :: cs => p == c && charsLead ps cs

/-- Whether pat occurs anywhere in the text. -/
def charsHasSub (pat : List Char) : List Char → Bool
  | [] => charsLead pat []
  | c :: cs => charsLead pat (c :: cs) || charsHasSub pat cs

/-- Whether pat occurs as a substring of s; used to state what a rendered
status line reports. -/
def strHasSub (s pat : String) : Bool := charsHasSub pat.data s.data

/-- The catalog-building loop of grpcConnect (src/main.go:577-597): for each
service name returned by ListServices, skip it when it equals the v1alpha
reflection service name literal, skip it when ResolveService fails (the
partial-success policy), and otherwise append one service/method entry per
method in order. -/
def buildCatalog (resolve : String → Option (List String)) : List String → List String
  | [] => []
  | srv :: rest =>
    if srv = "grpc.reflection.v1alpha.ServerReflection" then buildCatalog resolve rest
    else
      match resolve srv with
      | none => buildCatalog resolve rest
      | some methods => methods.map (fun m => srv ++ "/" ++ m) ++ buildCatalog resolve rest

/-- The effect of the grpcConnect goroutine (src/main.go:538-562) on the
grpcConn handle: some true is an open connection handle, some false a handle
that has been Close()d but not cleared, none no handle at all (nil). The
goroutine first closes any prior handle without clearing the field, then
performs the blocking dial; only a successful dial assigns a fresh handle,
and a dial error returns with the field untouched. -/
def grpcConnect (dialOk : Bool) (prior : Option Bool) : Option Bool :=
  let afterClose : Option Bool :=
    match prior with
    | none => none
    | some _ => some false
  if dialOk then some true else afterClose

/-- Case-insensitive subsequence test between a query and a candidate. -/
def isCharSubseq : List Char → List Char → Bool
  | [], _ => true
  | _ :: _, [] => false
  | p :: ps, c :: cs =>
    if p.toLower == c.toLower then isCharSubseq ps cs else isCharSubseq (p :: ps) cs

/-- Modelled from the external fuzzy-matching dependency (fuzzy.Find of
github.com/sahilm/fuzzy, called at src/main.go:404, whose source is not part
of this repository): the candidates that match the query as a
case-insensitive subsequence. The library additionally orders its matches by
a relevance score; none of the verified claims depend on that order, and on
an empty candidate list every traversal returns the empty match list. -/
def fuzzyFind (query : String) (candidates : List String) : List String :=
  candidates.filter (fun c => isCharSubseq query.data c.data)

/-- updateGrpcMethodList (src/main.go:393-426) as a function from the query
and the full catalog (grpcAllMethods) to the pair of the filtered catalog
(grpcAvailableMethods) and the rows shown in the list widget. An empty query
restores the whole catalog and hides the list (no rows); otherwise the fuzzy
matches are ranked in, and with no match the available list is empty and a
single no-results row is shown. -/
def updateGrpcMethodList (query : String) (allMethods : List String) :
    List String × List String :=
  if query = "" then (allMethods, [])
  else
    let matched := fuzzyFind query allMethods
    if 0 < matched.length then (matched, matched)
    else (matched, ["[gray]No results found"])

end Panggil

namespace Panggil

theorem buildTemplateMap_zero (env : MessageEnv) (fields : List FieldDescriptor)
    (existing : List (String × Json)) : buildTemplateMap env 0 fields existing = none := rfl

theorem buildTemplateMap_succ (env : MessageEnv) (n : Nat) (fields : List FieldDescriptor)
    (existing : List (String × Json)) :
    buildTemplateMap env (Nat.succ n) fields existing =
      buildTemplateFields env (fun fs ex => buildTemplateMap env n fs ex) fields existing := rfl

theorem buildTemplateFields_keys (env : MessageEnv)
    (recur : List FieldDescriptor → List (String × Json) → Option (List (String × Json)))
    (fields : List FieldDescriptor) (existing : List (String × Json))
    (t : List (String × Json))
    (h : buildTemplateFields env recur fields existing = some t) :
    t.map Prod.fst = fields.map FieldDescriptor.jsonName := by
  induction fields generalizing t with
  | nil =>
    simp only [buildTemplateFields, Option.some.injEq] at h
    subst h
    rfl
  | cons f rest ih =>
    cases hv : buildFieldValue env recur f existing with
    | none => simp [buildTemplateFields, hv] at h
    | some v =>
      cases ht : buildTemplateFields env recur rest existing with
      | none => simp [buildTemplateFields, hv, ht] at h
      | some t2 =>
        simp only [buildTemplateFields, hv, ht, Option.some.injEq] at h
        subst h
        simp [ih t2 ht]

theorem buildTemplateFields_lookupField (env : MessageEnv)
    (recur : List FieldDescriptor → List (String × Json) → Option (List (String × Json)))
    (fields : List FieldDescriptor) (existing : List (String × Json))
    (t : List (String × Json)) (f : FieldDescriptor)
    (h : buildTemplateFields env recur fields existing = some t)
    (hnd : (fields.map FieldDescriptor.jsonName).Nodup)
    (hmem : f ∈ fields) :
    ∃ v, buildFieldValue env recur f existing = some v ∧ lookupObj t f.jsonName = some v := by
  induction fields generalizing t with
  | nil => cases hmem
  | cons g rest ih =>
    cases hv : buildFieldValue env recur g existing with
    | none => simp [buildTemplateFields, hv] at h
    | some v =>
      cases ht : buildTemplateFields env recur rest existing with
      | none => simp [buildTemplateFields, hv, ht] at h
      | some t2 =>
        simp only [buildTemplateFields, hv, ht, Option.some.injEq] at h
        subst h
        rcases List.mem_cons.mp hmem with hfg | hf
        · subst hfg
          exact ⟨v, hv, by simp [lookupObj]⟩
        · have hne : g.jsonName ≠ f.jsonName := by
            intro he
            have hin : f.jsonName ∈ rest.map FieldDescriptor.jsonName :=
              List.mem_map_of_mem FieldDescriptor.jsonName hf
            have hnotin := (List.nodup_cons.mp ((by simpa using hnd :
              (g.jsonName :: rest.map FieldDescriptor.jsonName).Nodup))).1
            exact hnotin (he ▸ hin)
          obtain ⟨v2, hv2, hl⟩ := ih t2 ht
            (List.nodup_cons.mp ((by simpa using hnd :
              (g.jsonName :: rest.map FieldDescriptor.jsonName).Nodup))).2 hf
          exact ⟨v2, hv2, by simp [lookupObj, hne, hl]⟩

/-- Claim C1: for every input message schema and every existing JSON object,
including the empty one, the synthesized template has exactly one entry per
field declared in the schema, keyed by the field's JSON name, never more and
never fewer: whenever buildTemplateMap completes, the keys of its result are
exactly the JSON names of the declared fields, in declaration order. -/
theorem buildTemplateMap_one_entry_per_field (env : MessageEnv) (fuel : Nat)
    (fields : List FieldDescriptor) (existing : List (String × Json))
    (t : List (String × Json))
    (h : buildTemplateMap env fuel fields existing = some t) :
    t.map Prod.fst = fields.map FieldDescriptor.jsonName := by
  cases fuel with
  | zero => simp [buildTemplateMap_zero] at h
  | succ n =>
    rw [buildTemplateMap_succ] at h
    exact buildTemplateFields_keys env _ fields existing t h

theorem buildTemplateMap_one_entry_per_field_witness :
    buildTemplateMap [] 1 scenarioFields scenarioExisting =
      some [("name", Json.str "Bob"), ("repeat", Json.num 0)] ∧
    ([("name", Json.str "Bob"), ("repeat", Json.num 0)].map Prod.fst =
      scenarioFields.map FieldDescriptor.jsonName) :=
  ⟨rfl, buildTemplateMap_one_entry_per_field [] 1 scenarioFields scenarioExisting _ rfl⟩

/-- Claim C2: the claim states that synthesis terminates on every schema, in
particular on self-referential ones, because a schema revisited on the current
recursion path is replaced by a placeholder. The code has no such guard: on
the schema T with a singular message field self of type T and an empty
existing object, no recursion depth whatsoever completes, i.e. the Go
recursion in buildTemplateMap never terminates (it overflows the stack). -/
theorem buildTemplateMap_selfref_diverges (fuel : Nat) :
    buildTemplateMap selfRecEnv fuel (lookupMsg selfRecEnv "T") [] = none := by
  induction fuel with
  | zero => rfl
  | succ n ih =>
    have hT : lookupMsg selfRecEnv "T" =
        [⟨"self", ProtoKind.messageKind "T", false, false⟩] := rfl
    rw [buildTemplateMap_succ, hT]
    rw [hT] at ih
    simp [buildTemplateFields, buildFieldValue, lookupObj, lookupMsg, ih,
      isSingularMessage, isMessageKind, messageTypeName]

/-- Claim C3: if the existing object has a value under the JSON name of a
declared field, the field is a singular nested-message field, and the existing
value is itself a JSON object, then the synthesized entry for that field is
the recursive synthesis of the field's message schema against that existing
value: user edits are preserved at every nesting depth. -/
theorem buildTemplateMap_recursive_merge (env : MessageEnv) (fuel : Nat)
    (fields : List FieldDescriptor) (existing : List (String × Json))
    (t : List (String × Json)) (f : FieldDescriptor) (sub : List (String × Json))
    (h : buildTemplateMap env (Nat.succ fuel) fields existing = some t)
    (hnd : (fields.map FieldDescriptor.jsonName).Nodup)
    (hmem : f ∈ fields)
    (hex : lookupObj existing f.jsonName = some (Json.obj sub))
    (hsm : isSingularMessage f = true) :
    ∃ t2, buildTemplateMap env fuel (lookupMsg env (messageTypeName f.kind)) sub = some t2 ∧
      lookupObj t f.jsonName = some (Json.obj t2) := by
  rw [buildTemplateMap_succ] at h
  obtain ⟨v, hv, hl⟩ := buildTemplateFields_lookupField env _ fields existing t f h hnd hmem
  rw [buildFieldValue, hex] at hv
  simp only [hsm, if_true] at hv
  cases hb : buildTemplateMap env fuel (lookupMsg env (messageTypeName f.kind)) sub with
  | none =>
    rw [hb] at hv
    simp at hv
  | some t2 =>
    rw [hb] at hv
    simp at hv
    subst hv
    exact ⟨t2, rfl, hl⟩

theorem buildTemplateMap_recursive_merge_witness :
    buildTemplateMap innerEnv 2 [innerField] [("inner", Json.obj [("x", Json.num 5)])] =
      some [("inner", Json.obj [("x", Json.num 5), ("y", Json.num 0)])] ∧
    (∃ t2, buildTemplateMap innerEnv 1 (lookupMsg innerEnv (messageTypeName innerField.kind))
        [("x", Json.num 5)] = some t2 ∧
      lookupObj [("inner", Json.obj [("x", Json.num 5), ("y", Json.num 0)])]
        innerField.jsonName = some (Json.obj t2)) := by
  refine ⟨rfl, ?_⟩
  exact buildTemplateMap_recursive_merge innerEnv 1 [innerField]
    [("inner", Json.obj [("x", Json.num 5)])]
    [("inner", Json.obj [("x", Json.num 5), ("y", Json.num 0)])]
    innerField [("x", Json.num 5)] rfl (by decide) (by decide) rfl rfl

/-- Claim C4: if the existing object has a value under a declared field's JSON
name and the recursive-merge case does not apply, because the field is not a
singular message field or the existing value is not a JSON object, then the
synthesized entry for that field is the existing value verbatim, with no
coercion and no validation, regardless of its shape. -/
theorem buildTemplateMap_keeps_existing_verbatim (env : MessageEnv) (fuel : Nat)
    (fields : List FieldDescriptor) (existing : List (String × Json))
    (t : List (String × Json)) (f : FieldDescriptor) (v : Json)
    (h : buildTemplateMap env (Nat.succ fuel) fields existing = some t)
    (hnd : (fields.map FieldDescriptor.jsonName).Nodup)
    (hmem : f ∈ fields)
    (hex : lookupObj existing f.jsonName = some v)
    (hcase : isSingularMessage f = false ∨ Json.isObject v = false) :
    lookupObj t f.jsonName = some v := by
  rw [buildTemplateMap_succ] at h
  obtain ⟨w, hw, hl⟩ := buildTemplateFields_lookupField env _ fields existing t f h hnd hmem
  rw [buildFieldValue, hex] at hw
  have hvw : w = v := by
    rcases hcase with hns | hno
    · simp only [hns, Bool.false_eq_true, if_false, Option.some.injEq] at hw
      exact hw.symm
    · cases hsm : isSingularMessage f with
      | false =>
        simp only [hsm, Bool.false_eq_true, if_false, Option.some.injEq] at hw
        exact hw.symm
      | true =>
        simp only [hsm, if_true] at hw
        cases v <;> simp_all [Json.isObject]
  rw [hvw] at hl
  exact hl

theorem buildTemplateMap_keeps_existing_verbatim_witness :
    buildTemplateMap [] 1 scenarioFields scenarioExisting =
      some [("name", Json.str "Bob"), ("repeat", Json.num 0)] ∧
    lookupObj [("name", Json.str "Bob"), ("repeat", Json.num 0)] nameField.jsonName =
      some (Json.str "Bob") := by
  refine ⟨rfl, ?_⟩
  exact buildTemplateMap_keeps_existing_verbatim [] 0 scenarioFields scenarioExisting
    [("name", Json.str "Bob"), ("repeat", Json.num 0)] nameField (Json.str "Bob")
    rfl (by decide) (by decide) rfl (Or.inl rfl)

/-- Claim C5: for every declared field with no value under its JSON name in
the existing object, the synthesized entry is the kind-appropriate default:
an empty sequence for repeated fields, an empty mapping for map fields, the
recursive synthesis against an empty object for singular message fields, the
empty string for string fields, false for boolean fields, and 0 for every
numeric and enum kind. -/
theorem buildTemplateMap_defaults (env : MessageEnv) (fuel : Nat)
    (fields : List FieldDescriptor) (existing : List (String × Json))
    (t : List (String × Json)) (f : FieldDescriptor)
    (h : buildTemplateMap env (Nat.succ fuel) fields existing = some t)
    (hnd : (fields.map FieldDescriptor.jsonName).Nodup)
    (hmem : f ∈ fields)
    (hex : lookupObj existing f.jsonName = none) :
    (f.isList = true → lookupObj t f.jsonName = some (Json.arr [])) ∧
    (f.isList = false → f.isMap = true → lookupObj t f.jsonName = some (Json.obj [])) ∧
    (∀ m, f.isList = false → f.isMap = false → f.kind = ProtoKind.messageKind m →
      ∃ t2, buildTemplateMap env fuel (lookupMsg env m) [] = some t2 ∧
        lookupObj t f.jsonName = some (Json.obj t2)) ∧
    (f.isList = false → f.isMap = false → f.kind = ProtoKind.stringKind →
      lookupObj t f.jsonName = some (Json.str "")) ∧
    (f.isList = false → f.isMap = false → f.kind = ProtoKind.boolKind →
      lookupObj t f.jsonName = some (Json.bool false)) ∧
    (f.isList = false → f.isMap = false → f.kind = ProtoKind.otherKind →
      lookupObj t f.jsonName = some (Json.num 0)) := by
  rw [buildTemplateMap_succ] at h
  obtain ⟨v, hv, hl⟩ := buildTemplateFields_lookupField env _ fields existing t f h hnd hmem
  rw [buildFieldValue, hex] at hv
  refine ⟨?_, ?_, ?_, ?_, ?_, ?_⟩
  · intro h1
    simp only [h1, if_true, Option.some.injEq] at hv
    rw [← hv] at hl
    exact hl
  · intro h1 h2
    simp only [h1, h2, Bool.false_eq_true, if_false, if_true, Option.some.injEq] at hv
    rw [← hv] at hl
    exact hl
  · intro m h1 h2 h3
    simp only [h1, h2, h3, Bool.false_eq_true, if_false] at hv
    cases hb : buildTemplateMap env fuel (lookupMsg env m) [] with
    | none =>
      rw [hb] at hv
      simp at hv
    | some t2 =>
      rw [hb] at hv
      simp at hv
      subst hv
      exact ⟨t2, rfl, hl⟩
  · intro h1 h2 h3
    simp only [h1, h2, h3, Bool.false_eq_true, if_false, getZeroValue,
      Option.some.injEq] at hv
    rw [← hv] at hl
    exact hl
  · intro h1 h2 h3
    simp only [h1, h2, h3, Bool.false_eq_true, if_false, getZeroValue,
      Option.some.injEq] at hv
    rw [← hv] at hl
    exact hl
  · intro h1 h2 h3
    simp only [h1, h2, h3, Bool.false_eq_true, if_false, getZeroValue,
      Option.some.injEq] at hv
    rw [← hv] at hl
    exact hl

theorem buildTemplateMap_defaults_witness :
    buildTemplateMap [] 1 scenarioFields scenarioExisting =
      some [("name", Json.str "Bob"), ("repeat", Json.num 0)] ∧
    lookupObj [("name", Json.str "Bob"), ("repeat", Json.num 0)] repeatField.jsonName =
      some (Json.num 0) := by
  refine ⟨rfl, ?_⟩
  have h := buildTemplateMap_defaults [] 0 scenarioFields scenarioExisting
    [("name", Json.str "Bob"), ("repeat", Json.num 0)] repeatField
    rfl (by decide) (by decide) rfl
  exact h.2.2.2.2.2 rfl rfl rfl

theorem strData_append (a b : String) : (a ++ b).data = a.data ++ b.data := by
  cases a
  cases b
  rfl

theorem charsLead_append (d zs : List Char) : charsLead d (d ++ zs) = true := by
  induction d with
  | nil => rfl
  | cons c cs ih => simp [charsLead, ih]

theorem charsHasSub_of_lead (d t : List Char) (h : charsLead d t = true) :
    charsHasSub d t = true := by
  cases t with
  | nil => simpa [charsHasSub] using h
  | cons c cs => simp [charsHasSub, h]

theorem charsHasSub_mid (d xs ys : List Char) : charsHasSub d (xs ++ (d ++ ys)) = true := by
  induction xs with
  | nil => simpa using charsHasSub_of_lead d (d ++ ys) (charsLead_append d ys)
  | cons x xt ih => simp [charsHasSub, ih]

theorem strHasSub_concat (a b c : String) : strHasSub (a ++ b ++ c) b = true := by
  show charsHasSub b.data (a ++ b ++ c).data = true
  rw [strData_append, strData_append, List.append_assoc]
  exact charsHasSub_mid b.data a.data c.data

/-- Claim C6 (amended): a malformed request body or metadata text makes
sendGrpcRequest fail with a parse error before the RPC is issued: InvokeRpc
never appears among the performed network operations, so no RPC is issued and
no partial send occurs. (The original claim additionally said no
reflection-resolution call is made; the counterexample shows ResolveService
runs before the texts are parsed.) -/
theorem sendGrpcRequest_no_rpc_on_parse_error (conn : Bool) (currentService : String)
    (resolveOk : String → Bool) (findMethod : String → String → Bool)
    (bodyParses metaParses : String → Bool) (rpcOk : Bool) (bodyText metaText : String)
    (h : (sendGrpcRequest conn currentService resolveOk findMethod bodyParses metaParses
        rpcOk bodyText metaText).fst = GrpcSendResult.bodyParseError ∨
      (sendGrpcRequest conn currentService resolveOk findMethod bodyParses metaParses
        rpcOk bodyText metaText).fst = GrpcSendResult.metaParseError) :
    NetOp.invokeRpc ∉ (sendGrpcRequest conn currentService resolveOk findMethod bodyParses
      metaParses rpcOk bodyText metaText).snd := by
  unfold sendGrpcRequest at h ⊢
  split_ifs at h ⊢ <;> simp_all

theorem sendGrpcRequest_no_rpc_on_parse_error_witness :
    (sendGrpcRequest true "pkg.Svc/M" (fun _ => true) (fun _ _ => true) (fun _ => false)
      (fun _ => true) true "oops" "").fst = GrpcSendResult.bodyParseError ∧
    NetOp.invokeRpc ∉ (sendGrpcRequest true "pkg.Svc/M" (fun _ => true) (fun _ _ => true)
      (fun _ => false) (fun _ => true) true "oops" "").snd := by
  refine ⟨by decide, ?_⟩
  exact sendGrpcRequest_no_rpc_on_parse_error true "pkg.Svc/M" (fun _ => true)
    (fun _ _ => true) (fun _ => false) (fun _ => true) true "oops" "" (Or.inl (by decide))

/-- Claim C6 counterexample: with a malformed request body, sendGrpcRequest
has already performed the reflection-resolution call ResolveService by the
time the parse error is detected, contradicting the part of the claim that
says no reflection-resolution call is made. -/
theorem sendGrpcRequest_resolves_before_parse_cex :
    (sendGrpcRequest true "pkg.Svc/M" (fun _ => true) (fun _ _ => true) (fun _ => false)
      (fun _ => true) true "oops" "") =
      (GrpcSendResult.bodyParseError, [NetOp.resolveService "pkg.Svc"]) ∧
    NetOp.resolveService "pkg.Svc" ∈
      (sendGrpcRequest true "pkg.Svc/M" (fun _ => true) (fun _ _ => true) (fun _ => false)
        (fun _ => true) true "oops" "").snd := by
  decide

/-- Claim C7 (amended): the elapsed duration is always measured, on success
and on failure; it is reported in the status line on success, but when the
remote call fails only the error is reported: the displayed status and
response of a failed call are independent of the measured duration. -/
theorem invokeGrpc_duration_measured (e : Nat) (outcome : RpcOutcome) :
    (invokeGrpc e outcome).fst = e ∧
    (∀ r, outcome = RpcOutcome.ok r →
      strHasSub ((invokeGrpc e outcome).snd).statusText (formatDuration e) = true) ∧
    (∀ err e2, outcome = RpcOutcome.rpcFailure err →
      (invokeGrpc e outcome).snd = (invokeGrpc e2 (RpcOutcome.rpcFailure err)).snd) := by
  refine ⟨rfl, ?_, ?_⟩
  · intro r hr
    subst hr
    show strHasSub ("[green]Success![-] | Duration: [cyan]" ++ formatDuration e ++ "[-]")
      (formatDuration e) = true
    exact strHasSub_concat _ _ _
  · intro err e2 hr
    subst hr
    rfl

theorem invokeGrpc_duration_measured_witness :
    (invokeGrpc 7 (RpcOutcome.rpcFailure "boom")).fst = 7 ∧
    (invokeGrpc 7 (RpcOutcome.rpcFailure "boom")).snd =
      (invokeGrpc 99 (RpcOutcome.rpcFailure "boom")).snd := by
  have h := invokeGrpc_duration_measured 7 (RpcOutcome.rpcFailure "boom")
  exact ⟨h.1, h.2.2 "boom" 99 rfl⟩

/-- Claim C7 counterexample: the claim says the measured duration is reported
alongside the error just as on success; at a concrete failed call the success
status contains the rendered duration while the failure status and response
do not mention it at all. -/
theorem invokeGrpc_error_omits_duration_cex :
    strHasSub ((invokeGrpc 5 (RpcOutcome.rpcFailure "boom")).snd).statusText
      (formatDuration 5) = false ∧
    strHasSub ((invokeGrpc 5 (RpcOutcome.rpcFailure "boom")).snd).responseText
      (formatDuration 5) = false ∧
    strHasSub ((invokeGrpc 5 (RpcOutcome.ok "resp")).snd).statusText
      (formatDuration 5) = true := by
  decide

/-- Claim C8: the claim says the service/method entries are unique and the
reflection service's own entry never appears, for every server and every
reflection protocol version in use. The catalog loop excludes only the
v1alpha reflection name: on a server whose reflection listing advertises the
v1 reflection service, which grpcreflect.NewClientAuto prefers, the v1
reflection service's own entry does appear in the catalog. -/
theorem buildCatalog_v1_reflection_included :
    buildCatalog
      (fun s => if s = "grpc.reflection.v1.ServerReflection"
        then some ["ServerReflectionInfo"] else some ["M"])
      ["grpc.reflection.v1.ServerReflection", "pkg.Svc"] =
      ["grpc.reflection.v1.ServerReflection/ServerReflectionInfo", "pkg.Svc/M"] ∧
    "grpc.reflection.v1.ServerReflection/ServerReflectionInfo" ∈
      buildCatalog
        (fun s => if s = "grpc.reflection.v1.ServerReflection"
          then some ["ServerReflectionInfo"] else some ["M"])
        ["grpc.reflection.v1.ServerReflection", "pkg.Svc"] := by
  decide

/-- Claim C9 (amended): when connect fails and no prior connection existed,
the connection handle stays nil, the Disconnected state, and a subsequent
invoke is rejected as not-connected without performing any network operation;
when a prior connection existed the failed attempt closes it but leaves the
handle set, so a subsequent invoke is not rejected (see the
counterexample). -/
theorem grpcConnect_fail_fresh_disconnected (currentService : String)
    (resolveOk : String → Bool) (findMethod : String → String → Bool)
    (bodyParses metaParses : String → Bool) (rpcOk : Bool) (bodyText metaText : String) :
    grpcConnect false none = none ∧
    sendGrpcRequest (grpcConnect false none).isSome currentService resolveOk findMethod
      bodyParses metaParses rpcOk bodyText metaText = (GrpcSendResult.notConnected, []) :=
  ⟨rfl, rfl⟩

/-- Claim C9 counterexample: after a successful connection, a failed
reconnect closes the old handle but does not clear the field, so the Endpoint
does not return to the Disconnected (nil) state and a subsequent invoke is
not rejected as not-connected: it proceeds to perform network operations on
the closed connection. -/
theorem grpcConnect_fail_stale_handle_cex :
    grpcConnect false (some true) = some false ∧
    (sendGrpcRequest (grpcConnect false (some true)).isSome "pkg.Svc/M" (fun _ => true)
      (fun _ _ => true) (fun _ => true) (fun _ => true) true "" "").fst ≠
        GrpcSendResult.notConnected ∧
    (sendGrpcRequest (grpcConnect false (some true)).isSome "pkg.Svc/M" (fun _ => true)
      (fun _ _ => true) (fun _ => true) (fun _ => true) true "" "").snd ≠ [] := by
  decide

/-- Claim C10: the method matcher boundary behaviour: an empty query returns
the catalog unchanged, in discovery order, with no ranking applied, and any
query against an empty catalog yields an empty available-methods list. -/
theorem updateGrpcMethodList_boundary (catalog : List String) (q : String) :
    (updateGrpcMethodList "" catalog).fst = catalog ∧
    (updateGrpcMethodList q []).fst = [] := by
  constructor
  · rfl
  · by_cases hq : q = ""
    · subst hq
      rfl
    · simp [updateGrpcMethodList, hq, fuzzyFind]

end Panggil
